import Mathlib

/-!
Shallow embedding of the real-time chat core:
the chat entity store (backend/src/models/chat.model.ts),
the message entity store (message model), and the socket
event handlers (backend/src/services/socket.service.ts).

Conventions of the embedding:
  - Mongo ObjectIds are plain strings together with the validity test
    used by mongoose (12-character string, or 24 hexadecimal characters).
  - Dates are natural numbers (milliseconds since epoch).
  - The document store is an explicit record of lists; each store call
    threads the record. Fresh ids and clock readings generated by the
    store are explicit parameters.
  - Throwing code returns Except String; the thrown Error message is
    the string.
  - Socket rooms (the strings "chat:" ++ id and "user:" ++ id) are a
    tagged Channel type, keeping the two namespaces injective exactly
    as the string prefixes do for ObjectId-shaped ids.
-/

namespace ChatCore

/-- JS String.prototype.trim, modelled structurally (drop whitespace
from both ends) so that it evaluates by kernel reduction. -/
def jsTrim (s : String) : String :=
  String.mk (((s.data.dropWhile Char.isWhitespace).reverse.dropWhile
    Char.isWhitespace).reverse)

/-- Hexadecimal character test used by the ObjectId validity check. -/
def isHexChar (c : Char) : Bool :=
  (decide ('0' ≤ c) && decide (c ≤ '9')) ||
  (decide ('a' ≤ c) && decide (c ≤ 'f')) ||
  (decide ('A' ≤ c) && decide (c ≤ 'F'))

/-- mongoose.isValidObjectId for a string argument: a 12-character string
or a 24-character hexadecimal string (bson ObjectId.isValid). -/
def isValidObjectId (s : String) : Bool :=
  s.length == 12 || (s.length == 24 && s.data.all isHexChar)

/-- A stored user document (only the fields the chat core reads:
populate selects name and avatar, or name and profilePicture). -/
structure UserDoc where
  id : String
  name : String
  avatar : Option String
  profilePicture : Option String
deriving DecidableEq, Repr

/-- A chat document (chat.model.ts schema): participants, last-message
pointer and timestamps. isDirect and isGroup are virtuals derived from
participants.length and are not stored. -/
structure Chat where
  id : String
  name : Option String
  participants : List String
  lastMessage : Option String
  lastMessageAt : Option Nat
  createdAt : Nat
  updatedAt : Nat
deriving DecidableEq, Repr

/-- A message document (message model schema): owning chat, sender,
trimmed content, creation timestamp. -/
structure Message where
  id : String
  chat : String
  sender : String
  content : String
  createdAt : Nat
deriving DecidableEq, Repr

/-- The document store state threaded through every store call. -/
structure DB where
  users : List UserDoc
  chats : List Chat
  msgs : List Message
deriving DecidableEq, Repr

/-- The membership clause of the getForUser query: when a userId is
provided (and is truthy, i.e. not the empty string) the query also
requires participants to contain it; a missing or falsy userId leaves
the filter off, exactly as the if (userId) guard does. -/
def memberMatches (userId : Option String) (c : Chat) : Bool :=
  match userId with
  | none => true
  | some u => u == "" || c.participants.contains u

/-- Chat.getForUser: reject a malformed id, then findOne on the chat id
plus (optionally) membership of the given user. The populate of
lastMessage only enriches the returned snapshot and is not modelled. -/
def getForUser (db : DB) (chatId : String) (userId : Option String) :
    Except String (Option Chat) :=
  if isValidObjectId chatId = false then
    .error "Invalid chat ID format"
  else
    .ok (db.chats.find? (fun c => c.id == chatId && memberMatches userId c))

/-- The deduplicated participant pair Array.from(new Set([a, b])),
keeping first-occurrence order. -/
def pairParticipants (a b : String) : List String :=
  if a = b then [a] else [a, b]

/-- The name field stored by createPair: name?.trim() || null. -/
def trimmedName (nm : Option String) : Option String :=
  match nm with
  | none => none
  | some s => if jsTrim s = "" then none else some (jsTrim s)

/-- Chat.createPair: require both ids (truthy), cast them to ObjectId
(throws on a malformed id), require two distinct participants after
deduplication, then create the chat document. No uniqueness check
against existing chats is performed. -/
def createPair (db : DB) (a b : Option String) (nm : Option String)
    (freshId : String) (now : Nat) : Except String (Chat × DB) :=
  match a, b with
  | some a, some b =>
    if a = "" ∨ b = "" then .error "Both participant ids are required"
    else if isValidObjectId a = false ∨ isValidObjectId b = false then
      .error "ObjectId cast failed"
    else if (pairParticipants a b).length < 2 then
      .error "A direct chat requires two distinct participants"
    else
      let c : Chat :=
        { id := freshId, name := trimmedName nm, participants := pairParticipants a b,
          lastMessage := none, lastMessageAt := none, createdAt := now, updatedAt := now }
      .ok (c, { db with chats := db.chats ++ [c] })
  | _, _ => .error "Both participant ids are required"

/-- Chat.findDirectPair: null when either id is absent or falsy, cast
both ids, then findOne on participants containing both with size
exactly 2. -/
def findDirectPair (db : DB) (a b : Option String) :
    Except String (Option Chat) :=
  match a, b with
  | some a, some b =>
    if a = "" ∨ b = "" then .ok none
    else if isValidObjectId a = false ∨ isValidObjectId b = false then
      .error "ObjectId cast failed"
    else
      .ok (db.chats.find? (fun c =>
        c.participants.contains a && c.participants.contains b &&
          c.participants.length == 2))
  | _, _ => .ok none

/-- Outcome of Chat.leave. -/
inductive LeaveResult
  | noop
  | left
  | deleted
deriving DecidableEq, Repr

/-- deleteOne on the chat id: removes the first (in Mongo, the unique)
document with that id. -/
def removeFirstChat : List Chat → String → List Chat
  | [], _ => []
  | c :: rest, cid => if c.id = cid then rest else c :: removeFirstChat rest cid

/-- chat.save() after mutating participants: replaces the document with
the found id, with updatedAt refreshed (set explicitly in leave, and by
the timestamps option). -/
def saveParticipants : List Chat → String → List String → Nat → List Chat
  | [], _, _, _ => []
  | c :: rest, cid, ps, now =>
    if c.id = cid then { c with participants := ps, updatedAt := now } :: rest
    else c :: saveParticipants rest cid ps now

/-- Chat.leave: findById (casting the id), noop when absent; filter the
user out of participants; delete the chat when none remain; save with a
refreshed update timestamp when the count changed; otherwise noop. -/
def leave (db : DB) (chatId : String) (userId : String) (now : Nat) :
    Except String (LeaveResult × DB) :=
  if isValidObjectId chatId = false then .error "ObjectId cast failed"
  else
    match db.chats.find? (fun c => c.id == chatId) with
    | none => .ok (.noop, db)
    | some c =>
      let remaining := c.participants.filter (fun p => p != userId)
      if remaining.length = 0 then
        .ok (.deleted, { db with chats := removeFirstChat db.chats c.id })
      else if remaining.length ≠ c.participants.length then
        .ok (.left, { db with chats := saveParticipants db.chats c.id remaining now })
      else .ok (.noop, db)

/-- findByIdAndUpdate on the owning chat: sets the last-message pointer
and timestamp on the first (unique) document with that id, refreshing
updatedAt (timestamps option); silently does nothing when the chat is
absent. -/
def updateChatById : List Chat → String → String → Nat → List Chat
  | [], _, _, _ => []
  | c :: rest, cid, mid, now =>
    if c.id = cid then
      { c with lastMessage := some mid, lastMessageAt := some now, updatedAt := now } :: rest
    else c :: updateChatById rest cid mid now

/-- Message.createMessage: reject empty trimmed content, cast both ids,
enforce the schema maxlength of 2000 on the stored (trimmed) content,
insert the message, then advance the owning chat last-message pointer. -/
def createMessage (db : DB) (chatId senderId content : String)
    (freshId : String) (now : Nat) : Except String (Message × DB) :=
  if jsTrim content = "" then .error "Message content cannot be empty"
  else if isValidObjectId chatId = false then .error "ObjectId cast failed"
  else if isValidObjectId senderId = false then .error "ObjectId cast failed"
  else if 2000 < (jsTrim content).length then .error "Message validation failed: content too long"
  else
    let m : Message :=
      { id := freshId, chat := chatId, sender := senderId,
        content := jsTrim content, createdAt := now }
    .ok (m, { db with msgs := db.msgs ++ [m],
                      chats := updateChatById db.chats chatId freshId now })

/-- The sender summary attached by populate (select name avatar). -/
structure SenderInfo where
  id : String
  name : String
  avatar : Option String
deriving DecidableEq, Repr

/-- A sender-enriched (populated) message as returned to clients. -/
structure PopMessage where
  id : String
  chat : String
  sender : Option SenderInfo
  content : String
  createdAt : Nat
deriving DecidableEq, Repr

/-- populate("sender", "name avatar"): replace the sender id by the
summary of the referenced user, or null when the reference is dangling. -/
def populateSender (db : DB) (senderId : String) : Option SenderInfo :=
  (db.users.find? (fun u => u.id == senderId)).map
    (fun u => { id := u.id, name := u.name, avatar := u.avatar })

/-- Enrich one stored message with its sender summary. -/
def populateMsg (db : DB) (m : Message) : PopMessage :=
  { id := m.id, chat := m.chat, sender := populateSender db m.sender,
    content := m.content, createdAt := m.createdAt }

/-- The find filter of getMessagesForChat: owning chat, and strictly
older than the cursor when one is given. -/
def matchesQuery (chatId : String) (before : Option Nat) (m : Message) : Bool :=
  m.chat == chatId &&
    (match before with
     | some t => decide (m.createdAt < t)
     | none => true)

/-- Insert into a newest-first list, keeping it newest-first. -/
def insertDesc (m : Message) : List Message → List Message
  | [] => [m]
  | x :: xs => if m.createdAt ≤ x.createdAt then x :: insertDesc m xs else m :: x :: xs

/-- sort({createdAt: -1}): order newest first. -/
def sortDesc : List Message → List Message
  | [] => []
  | x :: xs => insertDesc x (sortDesc xs)

/-- The effective page size Math.max(1, Math.min(200, limit)). -/
def clampLimit (limit : Int) : Nat := (max 1 (min 200 limit)).toNat

/-- Message.getMessagesForChat: reject a malformed chat id, filter the
messages of the chat (optionally strictly older than the cursor), order
newest first, apply the clamped limit, and enrich each with its sender
summary. -/
def getMessagesForChat (db : DB) (chatId : String) (limit : Int)
    (before : Option Nat) : Except String (List PopMessage) :=
  if isValidObjectId chatId = false then .error "Invalid chatId format"
  else
    .ok (((sortDesc (db.msgs.filter (matchesQuery chatId before))).take
      (clampLimit limit)).map (populateMsg db))

/-- Message.getMessageById: findById plus sender populate. Callers pass
a store-generated id, so the ObjectId cast of the argument never throws
on the paths in scope. -/
def getMessageById (db : DB) (mid : String) : Option PopMessage :=
  (db.msgs.find? (fun m => m.id == mid)).map (populateMsg db)

/-- A broadcast group: the room channel "chat:" ++ chatId or the
personal channel "user:" ++ userId. -/
inductive Channel
  | chat (chatId : String)
  | user (userId : String)
deriving DecidableEq, Repr

/-- Where an emitted event goes: one socket (socket.emit) or a channel
(io.to(room).emit). -/
inductive Target
  | toSock (sid : String)
  | toChannel (ch : Channel)
deriving DecidableEq, Repr

/-- The events the handlers emit. -/
inductive SEvent
  | errorEv (message : String)
  | joinedRoom (chatId : String) (chat : Chat)
  | leftRoom (chatId : String)
  | newMessage (chatId : String) (message : PopMessage)
  | chatUpdated (chatId : String) (lastMessage : PopMessage)
deriving DecidableEq, Repr

/-- One live connection: socket id and the identity bound at handshake
(None when the auth middleware did not set it). -/
structure Conn where
  sid : String
  user : Option String
deriving DecidableEq, Repr

/-- Process-local socket.io state: the connected sockets and the
subscription table (socket id, channel). -/
structure ServerState where
  conns : List Conn
  subs : List (String × Channel)
deriving DecidableEq, Repr

/-- The result of running one handler: the emitted events in order, the
server state and the store state after it. -/
structure HandlerOut where
  emits : List (Target × SEvent)
  srv : ServerState
  db : DB
deriving DecidableEq, Repr

/-- socket.join: subscribe the socket to a channel (a no-op when
already subscribed, rooms being sets). -/
def joinChannel (srv : ServerState) (sid : String) (ch : Channel) : ServerState :=
  if (sid, ch) ∈ srv.subs then srv
  else { srv with subs := srv.subs ++ [(sid, ch)] }

/-- socket.leave: unsubscribe the socket from a channel (a no-op when
not subscribed). -/
def leaveChannel (srv : ServerState) (sid : String) (ch : Channel) : ServerState :=
  { srv with subs := srv.subs.filter (fun p => decide (p ≠ (sid, ch))) }

/-- String(socket.user?._id): the bound identity id, or the string
"undefined" when no identity is bound. -/
def userIdString : Option String → String
  | some u => u
  | none => "undefined"

/-- The presence snapshot of a room: for every socket currently
subscribed to the room channel, the identity bound to it (allSockets
then sockets.get then user._id, skipping sockets without a user). -/
def userIdsInRoom (srv : ServerState) (chatId : String) : List String :=
  (srv.subs.filter (fun s => decide (s.2 = Channel.chat chatId))).filterMap
    (fun s => (srv.conns.find? (fun c => c.sid == s.1)).bind (fun c => c.user))

/-- handleJoinRoom: validate the id, look the chat up filtered by the
bound identity, reject with the conflated not-found message when no
match, else subscribe to the room channel and confirm with the chat
snapshot. Any thrown error is caught and emitted as an error event. -/
def handleJoinRoom (srv : ServerState) (db : DB) (sock : Conn)
    (chatId : String) : HandlerOut :=
  if isValidObjectId chatId = false then
    { emits := [(.toSock sock.sid, .errorEv "Invalid chat ID")], srv := srv, db := db }
  else
    match getForUser db chatId sock.user with
    | .error e => { emits := [(.toSock sock.sid, .errorEv e)], srv := srv, db := db }
    | .ok none =>
      { emits := [(.toSock sock.sid, .errorEv "Chat not found or access denied")],
        srv := srv, db := db }
    | .ok (some chat) =>
      { emits := [(.toSock sock.sid, .joinedRoom chatId chat)],
        srv := joinChannel srv sock.sid (Channel.chat chatId), db := db }

/-- handleLeaveRoom: unconditionally leave the room channel and confirm.
socket.leave never throws, so the catch branch is dead code. -/
def handleLeaveRoom (srv : ServerState) (db : DB) (sock : Conn)
    (chatId : String) : HandlerOut :=
  { emits := [(.toSock sock.sid, .leftRoom chatId)],
    srv := leaveChannel srv sock.sid (Channel.chat chatId), db := db }

/-- handleSendMessage: validate the id and the content, re-check
membership, persist the message, re-fetch it enriched, broadcast
new_message to the room channel, then notify every participant other
than the sender whose identity is not in the presence snapshot on their
personal channel. Any thrown error is caught and emitted to the sender
as an error event. The re-fetch is a separate storage round-trip; its
answer is the refetchQ parameter, instantiated with getMessageById for
a storage that answers from the just-written state. -/
def handleSendMessage (srv : ServerState) (db : DB) (sock : Conn)
    (chatId content : String) (freshId : String) (now : Nat)
    (refetchQ : DB → String → Option PopMessage) : HandlerOut :=
  if isValidObjectId chatId = false then
    { emits := [(.toSock sock.sid, .errorEv "Invalid chat ID")], srv := srv, db := db }
  else if jsTrim content = "" then
    { emits := [(.toSock sock.sid, .errorEv "Message content is required")],
      srv := srv, db := db }
  else
    match getForUser db chatId sock.user with
    | .error e => { emits := [(.toSock sock.sid, .errorEv e)], srv := srv, db := db }
    | .ok none =>
      { emits := [(.toSock sock.sid, .errorEv "Chat not found or access denied")],
        srv := srv, db := db }
    | .ok (some chat) =>
      match createMessage db chatId (userIdString sock.user) (jsTrim content) freshId now with
      | .error e => { emits := [(.toSock sock.sid, .errorEv e)], srv := srv, db := db }
      | .ok (m, db2) =>
        match refetchQ db2 m.id with
        | none =>
          { emits := [(.toSock sock.sid, .errorEv "Failed to retrieve created message")],
            srv := srv, db := db2 }
        | some pm =>
          let inRoom := userIdsInRoom srv chatId
          let others := chat.participants.filter (fun p => p != userIdString sock.user)
          let notifies := (others.filter (fun p => !(inRoom.contains p))).map
            (fun p => ((Target.toChannel (Channel.user p)), SEvent.chatUpdated chatId pm))
          { emits := (Target.toChannel (Channel.chat chatId), SEvent.newMessage chatId pm)
              :: notifies,
            srv := srv, db := db2 }

/-! Concrete fixtures used by witnesses and counterexamples. -/

/-- A 12-character (hence valid) ObjectId for user A. -/
def idA : String := "aaaaaaaaaaaa"

/-- A 12-character (hence valid) ObjectId for user B. -/
def idB : String := "bbbbbbbbbbbb"

/-- A 12-character (hence valid) ObjectId for the chat of A and B. -/
def idC : String := "cccccccccccc"

/-- A fresh 12-character ObjectId for a created message. -/
def idM : String := "mmmmmmmmmmmm"

/-- A second fresh 12-character ObjectId. -/
def idD : String := "dddddddddddd"

/-- The stored user document of A. -/
def userA : UserDoc := { id := idA, name := "Alice", avatar := none, profilePicture := none }

/-- The stored user document of B. -/
def userB : UserDoc := { id := idB, name := "Bob", avatar := none, profilePicture := none }

/-- The direct chat between A and B. -/
def chatAB : Chat :=
  { id := idC, name := none, participants := [idA, idB],
    lastMessage := none, lastMessageAt := none, createdAt := 0, updatedAt := 0 }

/-- A store holding the chat of A and B and no messages. -/
def dbAB : DB := { users := [userA, userB], chats := [chatAB], msgs := [] }

/-- The connection of A. -/
def sockA : Conn := { sid := "s1", user := some idA }

/-- Server state with the connection of A present and no room
subscriptions: nobody is in any room channel. -/
def srvA : ServerState := { conns := [sockA], subs := [] }

/-- The message A sends in the fixtures. -/
def mHi : Message := { id := idM, chat := idC, sender := idA, content := "hi", createdAt := 5 }

/-- The store after createMessage persisted mHi into dbAB. -/
def dbAB2 : DB :=
  { users := [userA, userB],
    chats := [{ chatAB with lastMessage := some idM, lastMessageAt := some 5, updatedAt := 5 }],
    msgs := [mHi] }

/-- The enriched form of mHi. -/
def pmHi : PopMessage :=
  { id := idM, chat := idC, sender := some { id := idA, name := "Alice", avatar := none },
    content := "hi", createdAt := 5 }

/-- The empty store. -/
def dbEmpty : DB := { users := [], chats := [], msgs := [] }

/-- The chat created by the first createPair of A and B. -/
def chatAB0 : Chat :=
  { id := idC, name := none, participants := [idA, idB],
    lastMessage := none, lastMessageAt := none, createdAt := 0, updatedAt := 0 }

/-- The chat created by the second createPair of A and B. -/
def chatAB1 : Chat :=
  { id := idD, name := none, participants := [idA, idB],
    lastMessage := none, lastMessageAt := none, createdAt := 1, updatedAt := 1 }

/-- The store after the first createPair. -/
def dbOne : DB := { users := [], chats := [chatAB0], msgs := [] }

/-- The store after the second createPair: two distinct chats with the
same participant pair. -/
def dbTwo : DB := { users := [], chats := [chatAB0, chatAB1], msgs := [] }

/-- Three stored messages of the chat of A and B, at times 1, 2, 3. -/
def dbMsgs : DB :=
  { users := [userA, userB], chats := [chatAB],
    msgs := [{ id := "m1m1m1m1m1m1", chat := idC, sender := idA, content := "one", createdAt := 1 },
             { id := "m2m2m2m2m2m2", chat := idC, sender := idB, content := "two", createdAt := 2 },
             { id := "m3m3m3m3m3m3", chat := idC, sender := idA, content := "three", createdAt := 3 }] }

/-- A 12-character (hence valid) ObjectId for an outsider identity that
is not a participant of the chat of A and B. -/
def idU : String := "uuuuuuuuuuuu"

/-- The connection of the outsider. -/
def sockU : Conn := { sid := "s3", user := some idU }

/-- Server state with the outsider connected and no room subscriptions. -/
def srvU : ServerState := { conns := [sockU], subs := [] }

/-- The three fixture messages enriched, newest first: the expected
result of a paginated read of dbMsgs with a large limit. -/
def msgsDescW : List PopMessage :=
  [{ id := "m3m3m3m3m3m3", chat := idC,
     sender := some { id := idA, name := "Alice", avatar := none },
     content := "three", createdAt := 3 },
   { id := "m2m2m2m2m2m2", chat := idC,
     sender := some { id := idB, name := "Bob", avatar := none },
     content := "two", createdAt := 2 },
   { id := "m1m1m1m1m1m1", chat := idC,
     sender := some { id := idA, name := "Alice", avatar := none },
     content := "one", createdAt := 1 }]

/-! Theorems. -/

/-- C9: leaveRoom is idempotent: a second leaveRoom on the same chat id
emits the same single left_room confirmation as the first, reaches the
same subscription state, and never emits an error event. -/
theorem leaveRoom_idempotent (srv : ServerState) (db : DB) (sock : Conn)
    (chatId : String) :
    (handleLeaveRoom (handleLeaveRoom srv db sock chatId).srv
        (handleLeaveRoom srv db sock chatId).db sock chatId).emits =
      (handleLeaveRoom srv db sock chatId).emits ∧
    (handleLeaveRoom srv db sock chatId).emits =
      [(Target.toSock sock.sid, SEvent.leftRoom chatId)] ∧
    (handleLeaveRoom (handleLeaveRoom srv db sock chatId).srv
        (handleLeaveRoom srv db sock chatId).db sock chatId).srv =
      (handleLeaveRoom srv db sock chatId).srv ∧
    (∀ t msg, (t, SEvent.errorEv msg) ∉ (handleLeaveRoom srv db sock chatId).emits) := by
  refine ⟨rfl, rfl, ?_, ?_⟩
  · simp [handleLeaveRoom, leaveChannel, List.filter_filter]
  · intro t msg h
    simp [handleLeaveRoom] at h

/-- C10: leaveRoom performs no identifier validation and no membership
check: for every string chatId (malformed or never joined included) the
only emitted event is a left_room confirmation echoing that chatId, and
no error event is ever emitted. -/
theorem leaveRoom_no_validation (srv : ServerState) (db : DB) (sock : Conn)
    (chatId : String) :
    (handleLeaveRoom srv db sock chatId).emits =
      [(Target.toSock sock.sid, SEvent.leftRoom chatId)] ∧
    (∀ t msg, (t, SEvent.errorEv msg) ∉ (handleLeaveRoom srv db sock chatId).emits) := by
  refine ⟨rfl, ?_⟩
  intro t msg h
  simp [handleLeaveRoom] at h

/-- Witness for C9 at a concrete state: the fixture connection leaves a
room it never joined, twice, with identical confirmations. -/
theorem leaveRoom_idempotent_witness :
    (handleLeaveRoom (handleLeaveRoom srvA dbAB sockA idC).srv
        (handleLeaveRoom srvA dbAB sockA idC).db sockA idC).emits =
      (handleLeaveRoom srvA dbAB sockA idC).emits ∧
    (handleLeaveRoom srvA dbAB sockA idC).emits =
      [(Target.toSock "s1", SEvent.leftRoom idC)] :=
  ⟨(leaveRoom_idempotent srvA dbAB sockA idC).1,
   (leaveRoom_idempotent srvA dbAB sockA idC).2.1⟩

/-- Witness for C10 at a malformed chat id: leaveRoom still confirms
and does not error. -/
theorem leaveRoom_no_validation_witness :
    (handleLeaveRoom srvA dbAB sockA "not-an-id").emits =
      [(Target.toSock "s1", SEvent.leftRoom "not-an-id")] ∧
    isValidObjectId "not-an-id" = false :=
  ⟨(leaveRoom_no_validation srvA dbAB sockA "not-an-id").1, by decide⟩

/-- C2: sendMessage with a malformed chat id or content that trims to
empty emits exactly one validation error event to the sender, persists
nothing (the store is unchanged), and emits no new_message and no
chat_updated to anyone. -/
theorem sendMessage_validation_error (srv : ServerState) (db : DB) (sock : Conn)
    (chatId content freshId : String) (now : Nat)
    (refetchQ : DB → String → Option PopMessage)
    (h : isValidObjectId chatId = false ∨ jsTrim content = "") :
    ((handleSendMessage srv db sock chatId content freshId now refetchQ).emits =
        [(Target.toSock sock.sid, SEvent.errorEv "Invalid chat ID")] ∨
     (handleSendMessage srv db sock chatId content freshId now refetchQ).emits =
        [(Target.toSock sock.sid, SEvent.errorEv "Message content is required")]) ∧
    (handleSendMessage srv db sock chatId content freshId now refetchQ).db = db ∧
    (handleSendMessage srv db sock chatId content freshId now refetchQ).srv = srv := by
  rcases h with h | h
  · simp [handleSendMessage, h]
  · by_cases hv : isValidObjectId chatId = false
    · simp [handleSendMessage, hv]
    · simp [handleSendMessage, hv, h]

/-- Witness for C2: the malformed-id scenario of the spec, at a concrete
store: sendMessage("not-an-id", "hi") yields the validation error and
persists no message. -/
theorem sendMessage_validation_error_witness :
    ((handleSendMessage srvA dbAB sockA "not-an-id" "hi" idM 5 getMessageById).emits =
        [(Target.toSock "s1", SEvent.errorEv "Invalid chat ID")] ∨
     (handleSendMessage srvA dbAB sockA "not-an-id" "hi" idM 5 getMessageById).emits =
        [(Target.toSock "s1", SEvent.errorEv "Message content is required")]) ∧
    (handleSendMessage srvA dbAB sockA "not-an-id" "hi" idM 5 getMessageById).db = dbAB ∧
    (handleSendMessage srvA dbAB sockA "not-an-id" "hi" idM 5 getMessageById).srv = srvA :=
  sendMessage_validation_error srvA dbAB sockA "not-an-id" "hi" idM 5 getMessageById
    (Or.inl (by decide))

/-- C4: when the post-write re-fetch of the persisted message answers
nothing, sendMessage emits exactly one error event ("Failed to retrieve
created message") to the sending connection, no new_message and no
chat_updated, leaves the subscription state untouched (the connection
is not torn down), and keeps the already-persisted write. -/
theorem sendMessage_refetch_failure (srv : ServerState) (db : DB) (sock : Conn)
    (chatId content freshId : String) (now : Nat)
    (refetchQ : DB → String → Option PopMessage)
    (chat : Chat) (m : Message) (db2 : DB)
    (hvalid : isValidObjectId chatId = true)
    (hcontent : jsTrim content ≠ "")
    (hchat : getForUser db chatId sock.user = .ok (some chat))
    (hcreate : createMessage db chatId (userIdString sock.user) (jsTrim content)
        freshId now = .ok (m, db2))
    (hfetch : refetchQ db2 m.id = none) :
    handleSendMessage srv db sock chatId content freshId now refetchQ =
      { emits := [(Target.toSock sock.sid, SEvent.errorEv "Failed to retrieve created message")],
        srv := srv, db := db2 } := by
  simp [handleSendMessage, hvalid, hcontent, hchat, hcreate, hfetch]

/-- Witness for C4 at a concrete store, with a re-fetch that answers
nothing. -/
theorem sendMessage_refetch_failure_witness :
    handleSendMessage srvA dbAB sockA idC "hi" idM 5 (fun _ _ => none) =
      { emits := [(Target.toSock "s1", SEvent.errorEv "Failed to retrieve created message")],
        srv := srvA, db := dbAB2 } :=
  sendMessage_refetch_failure srvA dbAB sockA idC "hi" idM 5 (fun _ _ => none)
    chatAB mHi dbAB2 (by decide) (by decide) rfl rfl rfl

/-- C5: joinRoom with a well-formed chat id, when no chat with that id
has the bound identity among its participants (the chat is absent or
the identity is not a participant), emits exactly one error event with
the conflated not-found message and does not change the subscription
state; in particular the connection is never subscribed to the room
channel of that chat. -/
theorem joinRoom_not_found_or_denied (srv : ServerState) (db : DB) (sock : Conn)
    (chatId u : String)
    (hvalid : isValidObjectId chatId = true)
    (huser : sock.user = some u)
    (hu : u ≠ "")
    (hno : ∀ c ∈ db.chats, c.id = chatId → u ∉ c.participants) :
    handleJoinRoom srv db sock chatId =
      { emits := [(Target.toSock sock.sid, SEvent.errorEv "Chat not found or access denied")],
        srv := srv, db := db } ∧
    ((sock.sid, Channel.chat chatId) ∉ srv.subs →
      (sock.sid, Channel.chat chatId) ∉ (handleJoinRoom srv db sock chatId).srv.subs) := by
  have hfind : db.chats.find? (fun c => c.id == chatId && memberMatches (some u) c) = none := by
    rw [List.find?_eq_none]
    intro c hc
    simp only [memberMatches, Bool.and_eq_true, beq_iff_eq, Bool.or_eq_true,
      List.contains, List.elem_iff, not_and]
    intro hid h
    rcases h with h | h
    · exact hu h
    · exact hno c hc hid h
  have hout : handleJoinRoom srv db sock chatId =
      { emits := [(Target.toSock sock.sid, SEvent.errorEv "Chat not found or access denied")],
        srv := srv, db := db } := by
    simp [handleJoinRoom, getForUser, hvalid, huser, hfind]
  exact ⟨hout, fun h => by rw [hout]; exact h⟩

/-- Witness for C5: the outsider U3, a valid connection bound to an
identity that is not a participant of the chat of A and B, gets the
conflated error and stays unsubscribed. -/
theorem joinRoom_not_found_or_denied_witness :
    handleJoinRoom srvU dbAB sockU idC =
      { emits := [(Target.toSock "s3", SEvent.errorEv "Chat not found or access denied")],
        srv := srvU, db := dbAB } ∧
    ((("s3" : String), Channel.chat idC) ∉ srvU.subs →
      (("s3" : String), Channel.chat idC) ∉ (handleJoinRoom srvU dbAB sockU idC).srv.subs) :=
  joinRoom_not_found_or_denied srvU dbAB sockU idC idU (by decide) rfl (by decide)
    (by decide)

/-- Counterexample for C1 as stated: A sends "hi" into the chat of A
and B while no connection at all is subscribed to the room channel, so
the identity of A (the sender) is a participant outside the presence
snapshot; yet the fan-out delivers chat_updated only to the personal
channel of B, and nothing to the personal channel of A. -/
theorem sendMessage_excludes_sender_cex :
    idA ∈ chatAB.participants ∧
    userIdsInRoom srvA idC = [] ∧
    (handleSendMessage srvA dbAB sockA idC "hi" idM 5 getMessageById).emits =
      [(Target.toChannel (Channel.chat idC), SEvent.newMessage idC pmHi),
       (Target.toChannel (Channel.user idB), SEvent.chatUpdated idC pmHi)] ∧
    (Target.toChannel (Channel.user idA), SEvent.chatUpdated idC pmHi) ∉
      (handleSendMessage srvA dbAB sockA idC "hi" idM 5 getMessageById).emits := by
  exact ⟨by decide, by decide, by decide, by decide⟩

/-- C1 as amended: for every successful sendMessage, chat_updated with
the chat id and the enriched persisted message is delivered to the
personal channel of every participant other than the sender whose
identity is not in the presence snapshot taken at fan-out time; the
identity of the sender itself never receives chat_updated, even when
none of its connections are subscribed to the room. -/
theorem sendMessage_chatUpdated_fanout (srv : ServerState) (db : DB) (sock : Conn)
    (chatId content freshId : String) (now : Nat)
    (refetchQ : DB → String → Option PopMessage)
    (u : String) (chat : Chat) (m : Message) (db2 : DB) (pm : PopMessage)
    (huser : sock.user = some u)
    (hvalid : isValidObjectId chatId = true)
    (hcontent : jsTrim content ≠ "")
    (hchat : getForUser db chatId sock.user = .ok (some chat))
    (hcreate : createMessage db chatId u (jsTrim content) freshId now = .ok (m, db2))
    (hfetch : refetchQ db2 m.id = some pm) :
    (Target.toChannel (Channel.chat chatId), SEvent.newMessage chatId pm) ∈
      (handleSendMessage srv db sock chatId content freshId now refetchQ).emits ∧
    (∀ p, p ∈ chat.participants → p ≠ u → p ∉ userIdsInRoom srv chatId →
      (Target.toChannel (Channel.user p), SEvent.chatUpdated chatId pm) ∈
        (handleSendMessage srv db sock chatId content freshId now refetchQ).emits) ∧
    (∀ q, (Target.toChannel (Channel.user u), SEvent.chatUpdated chatId q) ∉
      (handleSendMessage srv db sock chatId content freshId now refetchQ).emits) := by
  have hcreate2 : createMessage db chatId (userIdString sock.user) (jsTrim content)
      freshId now = .ok (m, db2) := by rw [huser]; exact hcreate
  have hout : handleSendMessage srv db sock chatId content freshId now refetchQ =
      { emits := (Target.toChannel (Channel.chat chatId), SEvent.newMessage chatId pm)
          :: ((chat.participants.filter (fun p => p != userIdString sock.user)).filter
                (fun p => !((userIdsInRoom srv chatId).contains p))).map
              (fun p => (Target.toChannel (Channel.user p), SEvent.chatUpdated chatId pm)),
        srv := srv, db := db2 } := by
    simp only [handleSendMessage, hvalid, hcontent, hchat, hcreate2, hfetch,
      Bool.false_eq_true, if_false, if_neg hcontent]
    simp
  rw [hout]
  refine ⟨List.mem_cons_self _ _, ?_, ?_⟩
  · intro p hp hpu hpin
    refine List.mem_cons_of_mem _ (List.mem_map_of_mem _ ?_)
    refine List.mem_filter.mpr ⟨List.mem_filter.mpr ⟨hp, ?_⟩, ?_⟩
    · simp [huser, userIdString, hpu]
    · simp only [Bool.not_eq_eq_eq_not, Bool.not_true, List.contains, ← Bool.not_eq_true,
        List.elem_iff]
      simpa using hpin
  · intro q hq
    rcases List.mem_cons.mp hq with h | h
    · simp at h
    · rcases List.mem_map.mp h with ⟨p, hpmem, hpeq⟩
      have hpne : p ≠ u := by
        have := (List.mem_filter.mp (List.mem_filter.mp hpmem).1).2
        simpa [huser, userIdString] using this
      have : p = u := by
        have := congrArg Prod.fst hpeq
        simpa using this
      exact hpne this

/-- Witness for C1 as amended: in the concrete fixture, new_message is
broadcast to the room channel, B (a participant, absent from the empty
presence snapshot) receives chat_updated on its personal channel, and
the personal channel of the sender A receives no chat_updated. -/
theorem sendMessage_chatUpdated_fanout_witness :
    (Target.toChannel (Channel.chat idC), SEvent.newMessage idC pmHi) ∈
      (handleSendMessage srvA dbAB sockA idC "hi" idM 5 getMessageById).emits ∧
    (Target.toChannel (Channel.user idB), SEvent.chatUpdated idC pmHi) ∈
      (handleSendMessage srvA dbAB sockA idC "hi" idM 5 getMessageById).emits ∧
    (Target.toChannel (Channel.user idA), SEvent.chatUpdated idC pmHi) ∉
      (handleSendMessage srvA dbAB sockA idC "hi" idM 5 getMessageById).emits := by
  have h := sendMessage_chatUpdated_fanout srvA dbAB sockA idC "hi" idM 5 getMessageById
    idA chatAB mHi dbAB2 pmHi rfl (by decide) (by decide) rfl rfl rfl
  exact ⟨h.1, h.2.1 idB (by decide) (by decide) (by decide), h.2.2 pmHi⟩

/-- Counterexample for C3 as stated: two consecutive createPair calls
for the same pair (with distinct store-generated ids) produce two
distinct chats, both in the store, each with participant set exactly
the pair of A and B. -/
theorem createPair_duplicate_cex :
    createPair dbEmpty (some idA) (some idB) none idC 0 = .ok (chatAB0, dbOne) ∧
    createPair dbOne (some idA) (some idB) none idD 1 = .ok (chatAB1, dbTwo) ∧
    chatAB0 ≠ chatAB1 ∧
    chatAB0 ∈ dbTwo.chats ∧ chatAB1 ∈ dbTwo.chats ∧
    chatAB0.participants = [idA, idB] ∧ chatAB1.participants = [idA, idB] :=
  ⟨rfl, rfl, by decide, by decide, by decide, by decide, by decide⟩

/-- C3 as amended: the store does not enforce uniqueness of direct
chats. A second successful createPair(a,b) (with a fresh id) always
creates a second chat, distinct from the first, whose participant set
is exactly the pair; deduplication is solely the responsibility of
callers through findDirectPair before createPair. -/
theorem createPair_no_store_uniqueness (db : DB) (a b : String)
    (nm1 nm2 : Option String) (f1 f2 : String) (t1 t2 : Nat)
    (c1 : Chat) (db1 : DB) (c2 : Chat) (db2 : DB)
    (h1 : createPair db (some a) (some b) nm1 f1 t1 = .ok (c1, db1))
    (h2 : createPair db1 (some a) (some b) nm2 f2 t2 = .ok (c2, db2))
    (hf : f1 ≠ f2) :
    c1 ≠ c2 ∧ c1 ∈ db2.chats ∧ c2 ∈ db2.chats ∧
    c1.participants = [a, b] ∧ c2.participants = [a, b] ∧ a ≠ b := by
  simp only [createPair] at h1 h2
  by_cases g1 : a = "" ∨ b = ""
  · rw [if_pos g1] at h1
    exact absurd h1 (by simp)
  rw [if_neg g1] at h1 h2
  by_cases g2 : isValidObjectId a = false ∨ isValidObjectId b = false
  · rw [if_pos g2] at h1
    exact absurd h1 (by simp)
  rw [if_neg g2] at h1 h2
  by_cases g3 : (pairParticipants a b).length < 2
  · rw [if_pos g3] at h1
    exact absurd h1 (by simp)
  rw [if_neg g3] at h1 h2
  have hab : a ≠ b := by
    intro h
    apply g3
    simp [pairParticipants, h]
  have hpair : pairParticipants a b = [a, b] := by
    simp [pairParticipants, hab]
  rw [Except.ok.injEq, Prod.mk.injEq] at h1 h2
  obtain ⟨hc1, hdb1⟩ := h1
  obtain ⟨hc2, hdb2⟩ := h2
  have hid1 : c1.id = f1 := by rw [← hc1]
  have hid2 : c2.id = f2 := by rw [← hc2]
  refine ⟨?_, ?_, ?_, ?_, ?_, hab⟩
  · intro h
    exact hf (by rw [← hid1, h, hid2])
  · rw [← hdb2, ← hdb1]
    simp only [List.mem_append, List.mem_singleton]
    exact Or.inl (Or.inr hc1.symm)
  · rw [← hdb2]
    simp only [List.mem_append, List.mem_singleton]
    exact Or.inr hc2.symm
  · rw [← hc1, hpair]
  · rw [← hc2, hpair]

/-- Witness for C3 as amended, instantiated at the concrete duplicate
scenario of the counterexample. -/
theorem createPair_no_store_uniqueness_witness :
    chatAB0 ≠ chatAB1 ∧ chatAB0 ∈ dbTwo.chats ∧ chatAB1 ∈ dbTwo.chats ∧
    chatAB0.participants = [idA, idB] ∧ chatAB1.participants = [idA, idB] ∧
    idA ≠ idB := by
  exact createPair_no_store_uniqueness dbEmpty idA idB none none idC idD 0 1
    chatAB0 dbOne chatAB1 dbTwo rfl rfl (by decide)

/-- findByIdAndUpdate on the chat list: when the first (unique)
document with the given id is c, the updated list holds the same
document with the last-message pointer, its timestamp and updatedAt
set, still first for that id. -/
theorem find?_updateChatById (l : List Chat) (cid mid : String) (now : Nat) (c : Chat)
    (h : l.find? (fun x => x.id == cid) = some c) :
    (updateChatById l cid mid now).find? (fun x => x.id == cid) =
      some { c with lastMessage := some mid, lastMessageAt := some now,
                    updatedAt := now } := by
  induction l with
  | nil => simp at h
  | cons a t ih =>
    simp only [updateChatById]
    by_cases ha : a.id = cid
    · rw [if_pos ha]
      rw [List.find?_cons_of_pos _ (by simp [ha])] at h
      rw [List.find?_cons_of_pos _ (by simp [ha])]
      injection h with h
      rw [← h]
    · rw [if_neg ha]
      rw [List.find?_cons_of_neg _ (by simp [ha])] at h
      rw [List.find?_cons_of_neg _ (by simp [ha])]
      exact ih h

/-- C8: after a successful createMessage, the owning chat (the stored
document found under the chat id) carries lastMessage equal to the id
of the created message and lastMessageAt equal to its creation
timestamp. -/
theorem createMessage_updates_last_pointer (db : DB)
    (chatId senderId content freshId : String) (now : Nat)
    (m : Message) (db2 : DB) (c : Chat)
    (hok : createMessage db chatId senderId content freshId now = .ok (m, db2))
    (hc : db.chats.find? (fun x => x.id == chatId) = some c) :
    db2.chats.find? (fun x => x.id == chatId) =
      some { c with lastMessage := some m.id, lastMessageAt := some m.createdAt,
                    updatedAt := m.createdAt } := by
  simp only [createMessage] at hok
  by_cases g1 : jsTrim content = ""
  · rw [if_pos g1] at hok
    exact absurd hok (by simp)
  rw [if_neg g1] at hok
  by_cases g2 : isValidObjectId chatId = false
  · rw [if_pos g2] at hok
    exact absurd hok (by simp)
  rw [if_neg g2] at hok
  by_cases g3 : isValidObjectId senderId = false
  · rw [if_pos g3] at hok
    exact absurd hok (by simp)
  rw [if_neg g3] at hok
  by_cases g4 : 2000 < (jsTrim content).length
  · rw [if_pos g4] at hok
    exact absurd hok (by simp)
  rw [if_neg g4] at hok
  rw [Except.ok.injEq, Prod.mk.injEq] at hok
  obtain ⟨hm, hdb2⟩ := hok
  have hmid : m.id = freshId := by rw [← hm]
  have hmat : m.createdAt = now := by rw [← hm]
  rw [← hdb2, hmid, hmat]
  exact find?_updateChatById db.chats chatId freshId now c hc

/-- Witness for C8 at the concrete fixture store. -/
theorem createMessage_updates_last_pointer_witness :
    dbAB2.chats.find? (fun x => x.id == idC) =
      some { chatAB with lastMessage := some mHi.id, lastMessageAt := some mHi.createdAt,
                         updatedAt := mHi.createdAt } :=
  createMessage_updates_last_pointer dbAB idC idA "hi" idM 5 mHi dbAB2 chatAB rfl rfl

/-- Membership in an insertion into a newest-first list. -/
theorem mem_insertDesc {x m : Message} {l : List Message} :
    x ∈ insertDesc m l ↔ x = m ∨ x ∈ l := by
  induction l with
  | nil => simp [insertDesc]
  | cons a t ih =>
    simp only [insertDesc]
    by_cases h : m.createdAt ≤ a.createdAt
    · rw [if_pos h]
      simp only [List.mem_cons, ih]
      tauto
    · rw [if_neg h]
      simp only [List.mem_cons]

/-- Insertion grows the length by one. -/
theorem length_insertDesc (m : Message) (l : List Message) :
    (insertDesc m l).length = l.length + 1 := by
  induction l with
  | nil => rfl
  | cons a t ih =>
    simp only [insertDesc]
    by_cases h : m.createdAt ≤ a.createdAt
    · rw [if_pos h]
      simp [ih]
    · rw [if_neg h]
      simp

/-- Insertion preserves newest-first sortedness. -/
theorem pairwise_insertDesc (m : Message) (l : List Message)
    (hl : l.Pairwise (fun a b => b.createdAt ≤ a.createdAt)) :
    (insertDesc m l).Pairwise (fun a b => b.createdAt ≤ a.createdAt) := by
  induction l with
  | nil => simp [insertDesc]
  | cons a t ih =>
    rcases List.pairwise_cons.mp hl with ⟨ha, ht⟩
    simp only [insertDesc]
    by_cases h : m.createdAt ≤ a.createdAt
    · rw [if_pos h]
      refine List.pairwise_cons.mpr ⟨?_, ih ht⟩
      intro b hb
      rcases mem_insertDesc.mp hb with rfl | hb
      · exact h
      · exact ha b hb
    · rw [if_neg h]
      refine List.pairwise_cons.mpr ⟨?_, hl⟩
      intro b hb
      rcases List.mem_cons.mp hb with rfl | hb
      · omega
      · have := ha b hb
        omega

/-- Membership is preserved by the newest-first sort. -/
theorem mem_sortDesc {x : Message} {l : List Message} :
    x ∈ sortDesc l ↔ x ∈ l := by
  induction l with
  | nil => simp [sortDesc]
  | cons a t ih =>
    simp only [sortDesc, mem_insertDesc, ih, List.mem_cons]

/-- The newest-first sort preserves length. -/
theorem length_sortDesc (l : List Message) : (sortDesc l).length = l.length := by
  induction l with
  | nil => rfl
  | cons a t ih =>
    simp only [sortDesc, length_insertDesc, ih, List.length_cons]

/-- The newest-first sort is sorted. -/
theorem pairwise_sortDesc (l : List Message) :
    (sortDesc l).Pairwise (fun a b => b.createdAt ≤ a.createdAt) := by
  induction l with
  | nil => simp [sortDesc]
  | cons a t ih => exact pairwise_insertDesc a (sortDesc t) ih

/-- The effective page size is always between 1 and 200, whatever the
requested limit. -/
theorem clampLimit_bounds (limit : Int) :
    1 ≤ clampLimit limit ∧ clampLimit limit ≤ 200 := by
  unfold clampLimit
  have h1 : (1 : Int) ≤ max 1 (min 200 limit) := le_max_left _ _
  have h2 : max 1 (min 200 limit) ≤ 200 := max_le (by norm_num) (min_le_left _ _)
  omega

/-- C6: getMessagesForChat rejects a malformed chat id with a
ValidationError; on a well-formed id it returns messages of that chat
ordered newest first, the count equal to the clamped limit (between 1
and 200 regardless of the request) capped by how many messages match,
and, when a cursor is given, only messages strictly older than it. -/
theorem getMessagesForChat_spec (db : DB) (chatId : String) (limit : Int)
    (before : Option Nat) :
    (isValidObjectId chatId = false →
      getMessagesForChat db chatId limit before = .error "Invalid chatId format") ∧
    (∀ l, getMessagesForChat db chatId limit before = .ok l →
      l.Pairwise (fun a b => b.createdAt ≤ a.createdAt) ∧
      l.length ≤ 200 ∧
      1 ≤ clampLimit limit ∧
      l.length = min (clampLimit limit)
        (db.msgs.filter (matchesQuery chatId before)).length ∧
      (∀ pm ∈ l, pm.chat = chatId) ∧
      (∀ t, before = some t → ∀ pm ∈ l, pm.createdAt < t)) := by
  constructor
  · intro h
    simp [getMessagesForChat, h]
  · intro l hl
    by_cases hv : isValidObjectId chatId = false
    · simp only [getMessagesForChat, if_pos hv] at hl
      exact absurd hl (by simp)
    simp only [getMessagesForChat, if_neg hv, Except.ok.injEq] at hl
    subst hl
    have hforall : ∀ m, m ∈ (sortDesc (db.msgs.filter (matchesQuery chatId before))).take
        (clampLimit limit) → matchesQuery chatId before m = true := by
      intro m hm
      have hm2 : m ∈ sortDesc (db.msgs.filter (matchesQuery chatId before)) :=
        List.take_subset _ _ hm
      exact (List.mem_filter.mp (mem_sortDesc.mp hm2)).2
    refine ⟨?_, ?_, (clampLimit_bounds limit).1, ?_, ?_, ?_⟩
    · refine List.pairwise_map.mpr ?_
      exact List.Pairwise.sublist (List.take_sublist _ _)
        (pairwise_sortDesc (db.msgs.filter (matchesQuery chatId before)))
    · rw [List.length_map, List.length_take, length_sortDesc]
      have := (clampLimit_bounds limit).2
      omega
    · rw [List.length_map, List.length_take, length_sortDesc]
    · intro pm hpm
      rcases List.mem_map.mp hpm with ⟨m, hm, rfl⟩
      have := hforall m hm
      simp only [matchesQuery, Bool.and_eq_true, beq_iff_eq] at this
      exact this.1
    · intro t ht pm hpm
      rcases List.mem_map.mp hpm with ⟨m, hm, rfl⟩
      have := hforall m hm
      rw [ht] at this
      simp only [matchesQuery, Bool.and_eq_true, beq_iff_eq, decide_eq_true_eq] at this
      exact this.2

/-- Witness for C6: the three-message fixture with a requested limit of
1000 returns all three, newest first and at most 200 of them. -/
theorem getMessagesForChat_spec_witness :
    msgsDescW.Pairwise (fun a b => b.createdAt ≤ a.createdAt) ∧
    msgsDescW.length ≤ 200 := by
  have h := (getMessagesForChat_spec dbMsgs idC 1000 none).2 msgsDescW (by rfl)
  exact ⟨h.1, h.2.1⟩

/-- chat.save() keeps the saved document first under its id: when the
first document with the id is c, the saved list finds the same document
with the new participant list and refreshed update timestamp. -/
theorem find?_saveParticipants (l : List Chat) (cid : String) (ps : List String)
    (now : Nat) (c : Chat)
    (h : l.find? (fun x => x.id == cid) = some c) :
    (saveParticipants l cid ps now).find? (fun x => x.id == cid) =
      some { c with participants := ps, updatedAt := now } := by
  induction l with
  | nil => simp at h
  | cons a t ih =>
    simp only [saveParticipants]
    by_cases ha : a.id = cid
    · rw [if_pos ha]
      rw [List.find?_cons_of_pos _ (by simp [ha])] at h
      rw [List.find?_cons_of_pos _ (by simp [ha])]
      injection h with h
      rw [← h]
    · rw [if_neg ha]
      rw [List.find?_cons_of_neg _ (by simp [ha])] at h
      rw [List.find?_cons_of_neg _ (by simp [ha])]
      exact ih h

/-- After deleteOne under unique document ids, no remaining document
carries the deleted id. -/
theorem mem_removeFirstChat (l : List Chat) (cid : String)
    (hnd : (l.map (fun c => c.id)).Nodup) :
    ∀ x ∈ removeFirstChat l cid, x.id ≠ cid := by
  induction l with
  | nil =>
    intro x hx
    simp [removeFirstChat] at hx
  | cons a t ih =>
    simp only [List.map_cons, List.nodup_cons] at hnd
    obtain ⟨ha, ht⟩ := hnd
    simp only [removeFirstChat]
    by_cases hac : a.id = cid
    · rw [if_pos hac]
      intro x hx hxid
      exact ha (by rw [hac, ← hxid]; exact List.mem_map_of_mem _ hx)
    · rw [if_neg hac]
      intro x hx
      rcases List.mem_cons.mp hx with rfl | hx
      · exact hac
      · exact ih ht x hx

/-- The departing identity is gone from the filtered participant list. -/
theorem not_mem_filter_ne (l : List String) (p : String) :
    p ∉ l.filter (fun x => x != p) := by
  intro h
  have := (List.mem_filter.mp h).2
  simp at this

/-- With unique participants, filtering the departing identity out
removes exactly one entry. -/
theorem length_filter_ne (l : List String) (p : String) (hnd : l.Nodup)
    (hp : p ∈ l) :
    (l.filter (fun x => x != p)).length + 1 = l.length := by
  induction l with
  | nil => simp at hp
  | cons a t ih =>
    obtain ⟨ha, ht⟩ := List.nodup_cons.mp hnd
    by_cases hap : a = p
    · subst hap
      have hfilter : t.filter (fun x => x != a) = t := by
        rw [List.filter_eq_self]
        intro x hx
        simp only [bne_iff_ne, ne_eq, decide_eq_true_eq]
        intro heq
        exact ha (heq ▸ hx)
      simp [List.filter_cons, hfilter]
    · have hpt : p ∈ t := by
        rcases List.mem_cons.mp hp with h | h
        · exact absurd h.symm hap
        · exact h
      have hba : (a != p) = true := by simp [hap]
      rw [List.filter_cons, if_pos hba]
      have := ih ht hpt
      simp only [List.length_cons]
      omega

/-- A list with a member that is not that singleton has at least two
entries. -/
theorem two_le_length_of_ne_singleton (l : List String) (p : String)
    (hp : p ∈ l) (hne : l ≠ [p]) : 2 ≤ l.length := by
  cases l with
  | nil => simp at hp
  | cons a t =>
    cases t with
    | nil =>
      have hpa : p = a := by simpa using hp
      exact absurd (by rw [hpa]) hne
    | cons b t2 => simp [List.length_cons]

/-- findByIdAndUpdate keeps the document id list unchanged. -/
theorem map_id_updateChatById (l : List Chat) (cid mid : String) (now : Nat) :
    (updateChatById l cid mid now).map (fun c => c.id) = l.map (fun c => c.id) := by
  induction l with
  | nil => rfl
  | cons a t ih =>
    simp only [updateChatById]
    by_cases h : a.id = cid
    · rw [if_pos h]
      simp
    · rw [if_neg h]
      simp [ih]

/-- C7: leave is a noop (store unchanged) when the chat is absent or
the identity is not a participant; when the identity is a participant
and others remain it removes exactly one participant entry and
refreshes the update timestamp; when the identity was the last
participant the chat is deleted outright and getForUser no longer
finds it for anyone. Moreover this is the only deletion path: a
successful createPair keeps every existing chat and a successful
createMessage keeps the chat id list unchanged. -/
theorem leave_outcomes (db : DB) (chatId p : String) (now : Nat)
    (hvalid : isValidObjectId chatId = true)
    (hids : (db.chats.map (fun c => c.id)).Nodup) :
    (db.chats.find? (fun c => c.id == chatId) = none →
      leave db chatId p now = .ok (.noop, db)) ∧
    (∀ c, db.chats.find? (fun x => x.id == chatId) = some c →
      ((p ∉ c.participants → c.participants ≠ [] →
          leave db chatId p now = .ok (.noop, db)) ∧
       (p ∈ c.participants → c.participants.Nodup → c.participants ≠ [p] →
          ∃ db2, leave db chatId p now = .ok (.left, db2) ∧
            ∃ c2, db2.chats.find? (fun x => x.id == chatId) = some c2 ∧
              c2.participants.length + 1 = c.participants.length ∧
              p ∉ c2.participants ∧ c2.updatedAt = now) ∧
       (c.participants = [p] →
          ∃ db2, leave db chatId p now = .ok (.deleted, db2) ∧
            ∀ u, getForUser db2 chatId u = .ok none))) ∧
    (∀ db0 a b nm f n c1 db1, createPair db0 a b nm f n = .ok (c1, db1) →
      ∀ x ∈ db0.chats, x ∈ db1.chats) ∧
    (∀ db0 cid sid cont f n m db1, createMessage db0 cid sid cont f n = .ok (m, db1) →
      db1.chats.map (fun c => c.id) = db0.chats.map (fun c => c.id)) := by
  refine ⟨?_, ?_, ?_, ?_⟩
  · intro hfind
    simp [leave, hvalid, hfind]
  · intro c hfind
    have hcid : c.id = chatId := by
      have := List.find?_some hfind
      simpa using this
    refine ⟨?_, ?_, ?_⟩
    · intro hp hne
      have hfilter : c.participants.filter (fun x => x != p) = c.participants := by
        rw [List.filter_eq_self]
        intro x hx
        simp only [bne_iff_ne, ne_eq, decide_eq_true_eq]
        intro heq
        exact hp (heq ▸ hx)
      simp [leave, hvalid, hfind, hfilter, hne]
    · intro hp hnd hne
      have hlen : (c.participants.filter (fun x => x != p)).length + 1 =
          c.participants.length := length_filter_ne _ _ hnd hp
      have h2 : 2 ≤ c.participants.length := two_le_length_of_ne_singleton _ _ hp hne
      have hfne : ¬ (c.participants.filter (fun x => x != p)).length = 0 := by omega
      have hdiff : (c.participants.filter (fun x => x != p)).length ≠
          c.participants.length := by omega
      refine ⟨{ db with
          chats := saveParticipants db.chats c.id (c.participants.filter (fun x => x != p)) now },
        ?_, ?_⟩
      · simp [leave, hvalid, hfind, hfne, hdiff]
      · refine ⟨{ c with
            participants := c.participants.filter (fun x => x != p), updatedAt := now },
          ?_, ?_, not_mem_filter_ne _ _, rfl⟩
        · conv_lhs => rw [hcid]
          exact find?_saveParticipants db.chats chatId
            (c.participants.filter (fun x => x != p)) now c hfind
        · simpa using hlen
    · intro hsingle
      have hfilter : c.participants.filter (fun x => x != p) = [] := by
        rw [hsingle]
        simp
      refine ⟨{ db with chats := removeFirstChat db.chats c.id }, ?_, ?_⟩
      · simp [leave, hvalid, hfind, hfilter]
      · intro u
        have hnone : (removeFirstChat db.chats c.id).find?
            (fun x => x.id == chatId && memberMatches u x) = none := by
          rw [List.find?_eq_none]
          intro x hx
          have hxne := mem_removeFirstChat db.chats c.id hids x hx
          rw [hcid] at hxne
          simp [hxne]
        simp [getForUser, hvalid, hnone]
  · intro db0 a b nm f n c1 db1 h1 x hx
    cases a with
    | none => simp [createPair] at h1
    | some a =>
      cases b with
      | none => simp [createPair] at h1
      | some b =>
        simp only [createPair] at h1
        by_cases g1 : a = "" ∨ b = ""
        · rw [if_pos g1] at h1
          exact absurd h1 (by simp)
        rw [if_neg g1] at h1
        by_cases g2 : isValidObjectId a = false ∨ isValidObjectId b = false
        · rw [if_pos g2] at h1
          exact absurd h1 (by simp)
        rw [if_neg g2] at h1
        by_cases g3 : (pairParticipants a b).length < 2
        · rw [if_pos g3] at h1
          exact absurd h1 (by simp)
        rw [if_neg g3] at h1
        rw [Except.ok.injEq, Prod.mk.injEq] at h1
        obtain ⟨hc1, hdb1⟩ := h1
        rw [← hdb1]
        simp only [List.mem_append]
        exact Or.inl hx
  · intro db0 cid sid cont f n m db1 h1
    simp only [createMessage] at h1
    by_cases g1 : jsTrim cont = ""
    · rw [if_pos g1] at h1
      exact absurd h1 (by simp)
    rw [if_neg g1] at h1
    by_cases g2 : isValidObjectId cid = false
    · rw [if_pos g2] at h1
      exact absurd h1 (by simp)
    rw [if_neg g2] at h1
    by_cases g3 : isValidObjectId sid = false
    · rw [if_pos g3] at h1
      exact absurd h1 (by simp)
    rw [if_neg g3] at h1
    by_cases g4 : 2000 < (jsTrim cont).length
    · rw [if_pos g4] at h1
      exact absurd h1 (by simp)
    rw [if_neg g4] at h1
    rw [Except.ok.injEq, Prod.mk.injEq] at h1
    obtain ⟨hm, hdb1⟩ := h1
    rw [← hdb1]
    exact map_id_updateChatById db0.chats cid f n

/-- Witness for C7: an identity that never was a participant leaves the
fixture chat and the store is untouched with a noop outcome. -/
theorem leave_outcomes_witness :
    leave dbAB idC idU 7 = .ok (.noop, dbAB) := by
  have h := leave_outcomes dbAB idC idU 7 (by decide) (by decide)
  exact (h.2.1 chatAB rfl).1 (by decide) (by decide)

end ChatCore
